import Mathlib

/-!
Shallow embedding of `src/app.py` (Eyevinn/streaming-tech-tv-plus-ytdl),
a single-endpoint Flask microservice that downloads a YouTube video with
yt-dlp and uploads it to MinIO.

Modelling conventions:
* Parsed JSON values (`request.get_json()`, `json.loads`) are modelled by
  the inductive `JVal`.  JSON numbers are modelled as integers; fractional
  and exponent number literals are outside the model (the parser rejects
  them), as are the exact details of `\uXXXX` escapes for surrogate pairs.
* External effects (the yt-dlp subprocess, the temp-directory listing,
  `os.path.getsize`, the S3 upload) are inputs to the handler, collected in
  the structure `World`; the handler is then a pure function producing an
  `Outcome` (a Flask JSON response or an uncaught Python exception) together
  with an effect trace (`uploadCalled`, `tmpdirCreated`, `tmpdirRemoved`).
* Python's `with tempfile.TemporaryDirectory()` guarantees removal of the
  directory tree on every exit of the block, including an exception
  propagating out of it; `withTempDir` encodes exactly that semantics.
-/

/-- Python values obtained by parsing JSON (`json.loads` / `request.get_json`).
`null` stands for Python `None`; numbers are modelled as integers. -/
inductive JVal where
  | null : JVal
  | bool : Bool → JVal
  | num : Int → JVal
  | str : String → JVal
  | arr : List JVal → JVal
  | obj : List (String × JVal) → JVal
deriving Inhabited

/-- Python truthiness test applied to a parsed JSON value: `None`, `False`,
`0`, the empty string, the empty list and the empty dict are falsy. -/
def pyFalsy : JVal → Bool
  | .null => true
  | .bool b => !b
  | .num n => n == 0
  | .str s => s == ""
  | .arr xs => xs.isEmpty
  | .obj kvs => kvs.isEmpty

/-- Dictionary lookup, `d.get(k)`: for duplicate keys `json.loads` keeps the
last occurrence, so the last binding wins. -/
def dictGet (kvs : List (String × JVal)) (k : String) : Option JVal :=
  ((kvs.filter (fun p => p.1 == k)).map (fun p => p.2)).getLast?

/-- The whitespace characters recognised by Python's `json` module. -/
def isJsonWs (c : Char) : Bool :=
  c == ' ' || c == '\t' || c == '\n' || c == '\r'

/-- The whitespace characters stripped by Python's `str.strip()` (ASCII part). -/
def isPyWs (c : Char) : Bool :=
  c == ' ' || c == '\t' || c == '\n' || c == '\r' || c == '\x0b' || c == '\x0c'

/-- Python `s.strip()`: remove leading and trailing whitespace. -/
def pyStrip (s : String) : String :=
  ⟨((s.data.dropWhile isPyWs).reverse.dropWhile isPyWs).reverse⟩

/-- Python `s.rstrip("/")`: remove every trailing slash. -/
def pyRstripSlash (s : String) : String :=
  ⟨(s.data.reverse.dropWhile (fun c => c == '/')).reverse⟩

/-- Python `s[:n]` on a string: the first `n` code points. -/
def pyTake (n : Nat) (s : String) : String :=
  ⟨s.data.take n⟩

/-- Value of one hexadecimal digit, if any. -/
def hexDigitVal (c : Char) : Option Nat :=
  if '0' ≤ c ∧ c ≤ '9' then some (c.toNat - '0'.toNat)
  else if 'a' ≤ c ∧ c ≤ 'f' then some (c.toNat - 'a'.toNat + 10)
  else if 'A' ≤ c ∧ c ≤ 'F' then some (c.toNat - 'A'.toNat + 10)
  else none

/-- Decode one escape sequence (the characters after a backslash), giving the
decoded character and the rest of the input. -/
def parseEscape : List Char → Option (Char × List Char)
  | [] => none
  | e :: cs' =>
    if e == '"' then some ('"', cs')
    else if e == '\\' then some ('\\', cs')
    else if e == '/' then some ('/', cs')
    else if e == 'b' then some ('\x08', cs')
    else if e == 'f' then some ('\x0c', cs')
    else if e == 'n' then some ('\n', cs')
    else if e == 'r' then some ('\r', cs')
    else if e == 't' then some ('\t', cs')
    else if e == 'u' then
      match cs' with
      | h1 :: h2 :: h3 :: h4 :: rest =>
        match hexDigitVal h1, hexDigitVal h2, hexDigitVal h3, hexDigitVal h4 with
        | some a, some b, some c3, some d =>
          some (Char.ofNat (((a * 16 + b) * 16 + c3) * 16 + d), rest)
        | _, _, _, _ => none
      | _ => none
    else none

/-- Parse the body of a JSON string literal (after the opening quote),
returning the decoded string and the rest of the input.  Handles the JSON
escapes; an unescaped control character is an error, as in Python's strict
`json.loads`.  The fuel argument bounds recursion; one unit per consumed
character suffices. -/
def parseJsonString (fuel : Nat) (cs : List Char) : Option (String × List Char) :=
  match fuel with
  | 0 => none
  | fuel + 1 =>
    match cs with
    | [] => none
    | c :: cs =>
      if c == '"' then some ("", cs)
      else if c == '\\' then
        match parseEscape cs with
        | none => none
        | some (ch, rest) =>
          match parseJsonString fuel rest with
          | some (tail, rest') => some (⟨ch :: tail.data⟩, rest')
          | none => none
      else if c.toNat < 0x20 then none
      else
        match parseJsonString fuel cs with
        | some (tail, rest') => some (⟨c :: tail.data⟩, rest')
        | none => none

/-- Digits at the front of the input, as a numeral, with the rest. -/
def parseDigits : List Char → Option (Nat × List Char)
  | cs =>
    let ds := cs.takeWhile Char.isDigit
    if ds.isEmpty then none
    else some (ds.foldl (fun acc c => acc * 10 + (c.toNat - '0'.toNat)) 0, cs.dropWhile Char.isDigit)

/-- Parse a JSON number (integer literals only: an optional minus sign and
digits with no leading zero).  A fraction or exponent part makes the parse
fail — fractional numbers are outside this model. -/
def parseJsonNum (cs : List Char) : Option (Int × List Char) :=
  let (neg, cs₁) : Bool × List Char :=
    match cs with
    | '-' :: rest => (true, rest)
    | _ => (false, cs)
  match parseDigits cs₁ with
  | none => none
  | some (n, rest) =>
    let ds := cs₁.takeWhile Char.isDigit
    if ds.length > 1 ∧ ds.headD '0' == '0' then none
    else
      match rest with
      | '.' :: _ => none
      | 'e' :: _ => none
      | 'E' :: _ => none
      | _ => some (if neg then -(n : Int) else (n : Int), rest)

mutual

/-- Fueled recursive-descent parser for one JSON value, mirroring Python's
`json.loads` grammar (with integer-only numbers). -/
def parseJsonVal (fuel : Nat) (cs : List Char) : Option (JVal × List Char) :=
  match fuel with
  | 0 => none
  | fuel + 1 =>
    let cs := cs.dropWhile isJsonWs
    match cs with
    | [] => none
    | c :: rest =>
      if c == '"' then
        match parseJsonString (rest.length + 1) rest with
        | some (s, rest') => some (.str s, rest')
        | none => none
      else if c == '[' then
        let rest' := rest.dropWhile isJsonWs
        match rest' with
        | ']' :: tail => some (.arr [], tail)
        | _ =>
          match parseJsonElems fuel rest' [] with
          | some (xs, tail) => some (.arr xs, tail)
          | none => none
      else if c == '{' then
        let rest' := rest.dropWhile isJsonWs
        match rest' with
        | '}' :: tail => some (.obj [], tail)
        | _ =>
          match parseJsonMembers fuel rest' [] with
          | some (kvs, tail) => some (.obj kvs, tail)
          | none => none
      else if c == 't' then
        match rest with
        | 'r' :: 'u' :: 'e' :: tail => some (.bool true, tail)
        | _ => none
      else if c == 'f' then
        match rest with
        | 'a' :: 'l' :: 's' :: 'e' :: tail => some (.bool false, tail)
        | _ => none
      else if c == 'n' then
        match rest with
        | 'u' :: 'l' :: 'l' :: tail => some (.null, tail)
        | _ => none
      else
        match parseJsonNum cs with
        | some (n, rest') => some (.num n, rest')
        | none => none

/-- Comma-separated array elements, accumulating in reverse. -/
def parseJsonElems (fuel : Nat) (cs : List Char) (acc : List JVal) :
    Option (List JVal × List Char) :=
  match fuel with
  | 0 => none
  | fuel + 1 =>
    match parseJsonVal fuel cs with
    | none => none
    | some (v, rest) =>
      let rest := rest.dropWhile isJsonWs
      match rest with
      | ']' :: tail => some ((v :: acc).reverse, tail)
      | ',' :: tail => parseJsonElems fuel tail (v :: acc)
      | _ => none

/-- Comma-separated object members, accumulating in reverse. -/
def parseJsonMembers (fuel : Nat) (cs : List Char) (acc : List (String × JVal)) :
    Option (List (String × JVal) × List Char) :=
  match fuel with
  | 0 => none
  | fuel + 1 =>
    let cs := cs.dropWhile isJsonWs
    match cs with
    | '"' :: rest =>
      match parseJsonString (rest.length + 1) rest with
      | none => none
      | some (k, rest') =>
        let rest' := rest'.dropWhile isJsonWs
        match rest' with
        | ':' :: afterColon =>
          match parseJsonVal fuel afterColon with
          | none => none
          | some (v, rest'') =>
            let rest'' := rest''.dropWhile isJsonWs
            match rest'' with
            | '}' :: tail => some (((k, v) :: acc).reverse, tail)
            | ',' :: tail => parseJsonMembers fuel tail ((k, v) :: acc)
            | _ => none
        | _ => none
    | _ => none

end

/-- Python `json.loads`: parse the whole string as a single JSON value,
allowing surrounding whitespace; `none` models a raised `JSONDecodeError`. -/
def jsonLoads (s : String) : Option JVal :=
  match parseJsonVal (2 * s.length + 8) s.data with
  | none => none
  | some (v, rest) =>
    if (rest.dropWhile isJsonWs).isEmpty then some v else none

mutual

/-- Python `str()` applied to a parsed JSON value, as used in the f-strings
`f"{video_id}.%(ext)s"` and `f"youtube/{video_id}.mp4"`.  For strings this is
the string itself; containers render via `repr` (string escaping inside
reprs is not modelled). -/
def pyStr : JVal → String
  | .null => "None"
  | .bool true => "True"
  | .bool false => "False"
  | .num n => toString n
  | .str s => s
  | .arr xs => "[" ++ pyReprElems xs ++ "]"
  | .obj kvs => "\x7b" ++ pyReprMembers kvs ++ "\x7d"

/-- Python `repr()` of a parsed JSON value (strings get single quotes). -/
def pyRepr : JVal → String
  | .null => "None"
  | .bool true => "True"
  | .bool false => "False"
  | .num n => toString n
  | .str s => "'" ++ s ++ "'"
  | .arr xs => "[" ++ pyReprElems xs ++ "]"
  | .obj kvs => "\x7b" ++ pyReprMembers kvs ++ "\x7d"

/-- Comma-separated reprs of list elements. -/
def pyReprElems : List JVal → String
  | [] => ""
  | [x] => pyRepr x
  | x :: y :: xs => pyRepr x ++ ", " ++ pyReprElems (y :: xs)

/-- Comma-separated reprs of dict members. -/
def pyReprMembers : List (String × JVal) → String
  | [] => ""
  | [(k, v)] => "'" ++ k ++ "': " ++ pyRepr v
  | (k, v) :: m :: ms => "'" ++ k ++ "': " ++ pyRepr v ++ ", " ++ pyReprMembers (m :: ms)

end

/-- Python `int()` applied to a string: optional surrounding whitespace, an
optional sign, then one or more digits (digit-group underscores are not
modelled).  `none` models a raised `ValueError`. -/
def pyIntOfString (s : String) : Option Int :=
  let t := (pyStrip s).data
  let (neg, ds) : Bool × List Char :=
    match t with
    | '-' :: rest => (true, rest)
    | '+' :: rest => (false, rest)
    | _ => (false, t)
  if ds.isEmpty ∨ ¬ ds.all Char.isDigit then none
  else
    let n : Nat := ds.foldl (fun acc c => acc * 10 + (c.toNat - '0'.toNat)) 0
    some (if neg then -(n : Int) else (n : Int))

/-- Python `int()` applied to a parsed JSON value, as in `int(duration)`:
numbers pass through, booleans become 0/1, numeric strings are parsed, and
anything else raises (`none` models the raised `TypeError`/`ValueError`). -/
def pyInt : JVal → Option Int
  | .num n => some n
  | .bool b => some (if b then 1 else 0)
  | .str s => pyIntOfString s
  | _ => none

/-- Python `s.split(sep)` for a one-character separator: every occurrence
splits, empty pieces are kept, and the result is never the empty list. -/
def pySplitChar (sep : Char) : List Char → List (List Char)
  | [] => [[]]
  | c :: cs =>
    match pySplitChar sep cs with
    | [] => [[]]
    | h :: t => if c == sep then [] :: h :: t else (c :: h) :: t

/-- The expression `result.stdout.strip().split("\n")[-1]`: strip the
subprocess output, split on newlines, take the last piece (`split` always
returns a non-empty list, so the index never fails). -/
def lastLine (s : String) : String :=
  ⟨(pySplitChar '\n' (pyStrip s).data).getLastD []⟩

/-- Lines 150-154 of `app.py`: parse the last stdout line as JSON and read
`metadata.get("duration", 0)`.  A `JSONDecodeError` (and the unreachable
`IndexError`) is caught and yields duration 0; but if the line parses to a
JSON value that is not an object, `metadata.get` raises an `AttributeError`
that nothing catches — modelled by `none`. -/
def durationStep (stdout : String) : Option JVal :=
  match jsonLoads (lastLine stdout) with
  | none => some (.num 0)
  | some (.obj kvs) => some ((dictGet kvs "duration").getD (.num 0))
  | some _ => none

/-- Python `s.endswith(t)`, computed on the code points. -/
def pyEndsWith (s t : String) : Bool :=
  t.data.isSuffixOf s.data

/-- Filter from lines 157-160: does the file name end in a recognised video
container extension? -/
def hasVideoExt (f : String) : Bool :=
  pyEndsWith f ".mp4" || pyEndsWith f ".mkv" || pyEndsWith f ".webm"

/-- The fixed yt-dlp argument vector built on lines 115-128. -/
def ytDlpCmd (outputPath url : String) : List String :=
  ["yt-dlp", "--no-playlist", "--js-runtimes", "node", "--force-ipv4",
   "--extractor-args", "youtube:player_client=web_music,web",
   "--user-agent",
   "Mozilla/5.0 (Windows NT 10.0; Win64; x64) AppleWebKit/537.36 (KHTML, like Gecko) Chrome/131.0.0.0 Safari/537.36",
   "-f", "bestvideo[ext=mp4]+bestaudio[ext=m4a]/best[ext=mp4]/best",
   "--merge-output-format", "mp4",
   "-o", outputPath, "--no-progress", "--print-json", url]

/-- The output path template `os.path.join(tmpdir, f"{video_id}.%(ext)s")`. -/
def outputPathTemplate (tmpdir : String) (vid : JVal) : String :=
  tmpdir ++ "/" ++ pyStr vid ++ ".%(ext)s"

/-- Process-wide configuration read from the environment (or the config
service) before request handling; only the parts the handler reads. -/
structure Config where
  MINIO_ENDPOINT : String
  MINIO_BUCKET : String
  API_SECRET : String

/-- An inbound HTTP request, as the handler observes it:
`authorization` is the `Authorization` header if present, and `body` is the
value of `request.get_json()` (`none` when there is no JSON body or the body
is JSON `null`, both of which give Python `None`). -/
structure Req where
  authorization : Option String
  body : Option JVal

/-- Behaviour of the yt-dlp subprocess call on lines 132-140: either the
600-second timeout expires (`subprocess.TimeoutExpired`), or the process
completes with an exit code, captured stdout and captured stderr. -/
inductive SubprocResult where
  | timeout : SubprocResult
  | completed (returncode : Int) (stdout : String) (stderr : String) : SubprocResult

/-- External-world behaviour for one request: the subprocess result, the
temp-directory listing after the subprocess ran (`os.listdir(tmpdir)`), file
sizes (`os.path.getsize`, keyed by file name), whether `s3.upload_file`
raises (`some msg` is the exception's message), and the random token
`str(uuid.uuid4())[:8]`. -/
structure World where
  subproc : SubprocResult
  listdir : List String
  getsize : String → Nat
  uploadError : Option String
  uuidToken : String

/-- A Flask JSON response: an HTTP status and the `jsonify` body. -/
structure JsonResponse where
  status : Nat
  body : List (String × JVal)

/-- How the handler ends: a JSON response, or an uncaught Python exception
(which Flask converts to a default 500 page with no JSON error field). -/
inductive Outcome where
  | response (r : JsonResponse) : Outcome
  | exception (msg : String) : Outcome

/-- The handler's result together with its observable effect trace. -/
structure RunResult where
  outcome : Outcome
  uploadCalled : Bool
  tmpdirCreated : Bool
  tmpdirRemoved : Bool

/-- Line 170: `object_key = f"youtube/{video_id}.mp4"`. -/
def object_key (vid : JVal) : String :=
  "youtube/" ++ pyStr vid ++ ".mp4"

/-- Line 183:
`source_url = f"{MINIO_ENDPOINT.rstrip('/')}/{MINIO_BUCKET}/{object_key}"`. -/
def source_url (cfg : Config) (vid : JVal) : String :=
  pyRstripSlash cfg.MINIO_ENDPOINT ++ "/" ++ cfg.MINIO_BUCKET ++ "/" ++ object_key vid

/-- Lines 132-190, the part of the handler inside the temp-directory block:
run the subprocess, map timeout to 504, non-zero exit to 500 with at most
500 characters of stderr, parse the duration, scan for a video file (500
when none), upload (500 on failure), and build the success response with
`int(duration)` applied while the response dict is constructed.  The
returned flag records whether `s3.upload_file` was called. -/
def runInner (cfg : Config) (vid : JVal) (ext : World) : Outcome × Bool :=
  match ext.subproc with
  | .timeout =>
    (.response ⟨504, [("error", .str "Download timed out (10 min limit)")]⟩, false)
  | .completed rc out err =>
    if rc ≠ 0 then
      (.response ⟨500, [("error", .str ("Download failed: " ++ pyTake 500 err))]⟩, false)
    else
      match durationStep out with
      | none => (.exception "AttributeError", false)
      | some dur =>
        match ext.listdir.filter hasVideoExt with
        | [] => (.response ⟨500, [("error", .str "No video file found after download")]⟩, false)
        | f :: _ =>
          match ext.uploadError with
          | some e =>
            (.response ⟨500, [("error", .str ("Upload to storage failed: " ++ e))]⟩, true)
          | none =>
            match pyInt dur with
            | none => (.exception "TypeError", true)
            | some d =>
              (.response ⟨200, [("sourceUrl", .str (source_url cfg vid)),
                                ("duration", .num d),
                                ("fileSize", .num (ext.getsize f : Int))]⟩, true)

/-- Semantics of `with tempfile.TemporaryDirectory() as tmpdir:`: the
directory is created on entry and its whole tree is removed on every exit of
the block — a return, and equally an exception propagating out. -/
def withTempDir (inner : Outcome × Bool) : RunResult :=
  ⟨inner.1, inner.2, true, true⟩

/-- Line 106: `video_id = data.get("videoId", str(uuid.uuid4())[:8])` — the
stored value whenever the key is present (even when falsy), the random token
only when the key is absent. -/
def resolveVideoId (kvs : List (String × JVal)) (token : String) : JVal :=
  (dictGet kvs "videoId").getD (.str token)

/-- Lines 101-190: body validation and the download pipeline (everything
after the auth check).  `if not data or not data.get("url")` returns 400
when the body is `None` or falsy, and when it is a dict without a truthy
`url`; on a truthy non-dict body, `data.get` raises an uncaught
`AttributeError`.  `data.get("videoId", token)` uses the stored value
whenever the key is present (even when falsy) and the random token only when
it is absent. -/
def processRequest (cfg : Config) (req : Req) (ext : World) : RunResult :=
  match req.body with
  | none => ⟨.response ⟨400, [("error", .str "url is required")]⟩, false, false, false⟩
  | some data =>
    if pyFalsy data then
      ⟨.response ⟨400, [("error", .str "url is required")]⟩, false, false, false⟩
    else
      match data with
      | .obj kvs =>
        match dictGet kvs "url" with
        | none => ⟨.response ⟨400, [("error", .str "url is required")]⟩, false, false, false⟩
        | some u =>
          if pyFalsy u then
            ⟨.response ⟨400, [("error", .str "url is required")]⟩, false, false, false⟩
          else
            withTempDir (runInner cfg (resolveVideoId kvs ext.uuidToken) ext)
      | _ => ⟨.exception "AttributeError", false, false, false⟩

/-- Lines 95-190, the whole `download_video` handler: when an API secret is
configured and the `Authorization` header (defaulted to the empty string) is
not exactly `Bearer <secret>`, respond 401; otherwise run the pipeline. -/
def download_video (cfg : Config) (req : Req) (ext : World) : RunResult :=
  if cfg.API_SECRET ≠ "" then
    if req.authorization.getD "" ≠ "Bearer " ++ cfg.API_SECRET then
      ⟨.response ⟨401, [("error", .str "Unauthorized")]⟩, false, false, false⟩
    else processRequest cfg req ext
  else processRequest cfg req ext

/-- A registered Flask route: URL rule and allowed methods. -/
structure Route where
  path : String
  methods : List String

/-- The decorator on line 72: `@app.route("/health", methods=["GET"])`. -/
def health_route : Route := ⟨"/health", ["GET"]⟩

/-- The decorator on line 77:
`@app.route("/api/download", methods=["POST"])`. -/
def download_video_route : Route := ⟨"/api/download", ["POST"]⟩

/-- The `/health` handler's response. -/
def health : JsonResponse := ⟨200, [("status", .str "ok")]⟩

/-- The HTTP status a handler outcome carries, when it is a JSON response
(an uncaught exception produces Flask's default error page instead and
carries no `jsonify` body). -/
def outcomeStatus : Outcome → Option Nat
  | .response r => some r.status
  | .exception _ => none

/-- The `error` field of the JSON body, when the outcome is a JSON response
that has one. -/
def errorField : Outcome → Option JVal
  | .response r => dictGet r.body "error"
  | .exception _ => none

/-- Fixture: configuration with a trailing slash on the endpoint and no API
secret. -/
def cfg0 : Config := ⟨"http://minio:9000/", "source", ""⟩

/-- Fixture: configuration with an API secret. -/
def cfgSecret : Config := ⟨"http://minio:9000", "source", "s3cr3t"⟩

/-- Fixture: a well-formed request body. -/
def goodBody : JVal :=
  .obj [("url", .str "https://www.youtube.com/watch?v=abc"), ("videoId", .str "vid1")]

/-- Fixture: well-formed request, no auth header. -/
def reqGood : Req := ⟨none, some goodBody⟩

/-- Fixture: well-formed request with the matching bearer header. -/
def reqAuthGood : Req := ⟨some "Bearer s3cr3t", some goodBody⟩

/-- Fixture: well-formed request with a wrong bearer header. -/
def reqAuthBad : Req := ⟨some "Bearer wrong", some goodBody⟩

/-- Fixture: request with no JSON body at all. -/
def reqNoBody : Req := ⟨none, none⟩

/-- Fixture: request whose JSON body is the truthy non-object `[1]`. -/
def reqBadBody : Req := ⟨none, some (.arr [.num 1])⟩

/-- Fixture: request whose body binds `videoId` to the empty string. -/
def reqEmptyVid : Req :=
  ⟨none, some (.obj [("url", .str "https://youtu.be/x"), ("videoId", .str "")])⟩

/-- Fixture: request whose body has no `videoId` key. -/
def reqNoVid : Req := ⟨none, some (.obj [("url", .str "https://youtu.be/x")])⟩

/-- Fixture: the subprocess succeeds, printing a JSON record with duration
42 on its last line, and leaves `vid1.mp4` in the temp directory. -/
def wSuccess : World :=
  ⟨.completed 0 "preamble\n\x7b\"duration\": 42\x7d" "", ["vid1.mp4"],
   fun _ => 1234, none, "tok12345"⟩

/-- Fixture: the subprocess hits the 600 s timeout. -/
def wTimeout : World := ⟨.timeout, [], fun _ => 0, none, "tok12345"⟩

/-- Fixture: the subprocess exits 1 with diagnostic output on stderr. -/
def wFail : World := ⟨.completed 1 "" "ERROR: boom", [], fun _ => 0, none, "tok12345"⟩

/-- Fixture: exit 0 but the last stdout line is the JSON array `[1]`. -/
def wBadMeta : World :=
  ⟨.completed 0 "[1]" "", ["vid1.mp4"], fun _ => 1234, none, "tok12345"⟩

/-- Fixture: exit 0, last stdout line `[1]`, and no file produced. -/
def wBadMetaNoFile : World := ⟨.completed 0 "[1]" "", [], fun _ => 0, none, "tok12345"⟩

/-- Fixture: exit 0 with stdout that is not JSON at all. -/
def wGarbageMeta : World :=
  ⟨.completed 0 "no json here" "", ["vid1.mp4"], fun _ => 1234, none, "tok12345"⟩

/-- Fixture: exit 0, valid metadata, but no recognised video file. -/
def wNoFile : World :=
  ⟨.completed 0 "\x7b\"duration\": 42\x7d" "", ["vid1.txt"], fun _ => 0, none, "tok12345"⟩

/-- A dict in which some key is bound is non-empty, hence truthy. -/
theorem dictGet_some_not_falsy {kvs : List (String × JVal)} {k : String} {v : JVal}
    (h : dictGet kvs k = some v) : pyFalsy (JVal.obj kvs) = false := by
  cases kvs with
  | nil => simp [dictGet] at h
  | cons a l => rfl

/-- When no API secret is configured, or the bearer header matches, the auth
check falls through to the pipeline. -/
theorem download_video_auth_pass (cfg : Config) (req : Req) (w : World)
    (hauth : cfg.API_SECRET = "" ∨
             req.authorization.getD "" = "Bearer " ++ cfg.API_SECRET) :
    download_video cfg req w = processRequest cfg req w := by
  unfold download_video
  rcases hauth with h | h
  · rw [if_neg (by simp [h])]
  · by_cases hs : cfg.API_SECRET ≠ ""
    · rw [if_pos hs, if_neg (by simp [h])]
    · rw [if_neg hs]

/-- A request whose body is a dict with a truthy `url` passes validation and
runs the pipeline inside the temp directory. -/
theorem processRequest_valid (cfg : Config) (req : Req) (w : World)
    (kvs : List (String × JVal)) (u : JVal)
    (hb : req.body = some (JVal.obj kvs))
    (hku : dictGet kvs "url" = some u)
    (hu : pyFalsy u = false) :
    processRequest cfg req w =
      withTempDir (runInner cfg (resolveVideoId kvs w.uuidToken) w) := by
  unfold processRequest
  rw [hb]
  simp only [dictGet_some_not_falsy hku, Bool.false_eq_true, if_false, hku, hu]

/-- C3 (corrected), counterexample: the download handler is not registered
at `/download`; the decorator on line 77 uses `/api/download`. -/
theorem C3_route_counterexample : download_video_route.path ≠ "/download" := by
  decide

/-- C3 (amended): the download operation of the service is exposed at the
route `POST /api/download`. -/
theorem C3_route : download_video_route.path = "/api/download" ∧
    download_video_route.methods = ["POST"] :=
  ⟨rfl, rfl⟩

/-- C9: on every exit path of the handler — success, every handled error
response, and an uncaught exception during handling — the scoped temporary
directory is removed exactly when it was created, so no temporary files
survive the request. -/
theorem C9_tmpdir_cleanup (cfg : Config) (req : Req) (w : World) :
    (download_video cfg req w).tmpdirRemoved = (download_video cfg req w).tmpdirCreated := by
  unfold download_video processRequest withTempDir
  repeat' split
  all_goals rfl

/-- C4: if an API secret is configured, any request whose Authorization
header is absent or differs from `Bearer <secret>` gets a 401 and nothing
else happens (no temp dir, no upload), while a request carrying the exactly
matching header proceeds to validation and the download pipeline. -/
theorem C4_bearer_auth (cfg : Config) (req : Req) (w : World)
    (hs : cfg.API_SECRET ≠ "") :
    (req.authorization.getD "" ≠ "Bearer " ++ cfg.API_SECRET →
      download_video cfg req w =
        ⟨Outcome.response ⟨401, [("error", JVal.str "Unauthorized")]⟩,
         false, false, false⟩) ∧
    (req.authorization.getD "" = "Bearer " ++ cfg.API_SECRET →
      download_video cfg req w = processRequest cfg req w) := by
  constructor
  · intro hne
    unfold download_video
    rw [if_pos hs, if_pos hne]
  · intro heq
    exact download_video_auth_pass cfg req w (Or.inr heq)

/-- C4, witness: with the secret `s3cr3t` configured, a wrong bearer header
is rejected with 401 and the matching one reaches the pipeline. -/
theorem C4_bearer_auth_witness :
    download_video cfgSecret reqAuthBad wSuccess =
      ⟨Outcome.response ⟨401, [("error", JVal.str "Unauthorized")]⟩,
       false, false, false⟩ ∧
    download_video cfgSecret reqAuthGood wSuccess =
      processRequest cfgSecret reqAuthGood wSuccess :=
  ⟨(C4_bearer_auth cfgSecret reqAuthBad wSuccess (by decide)).1 (by decide),
   (C4_bearer_auth cfgSecret reqAuthGood wSuccess (by decide)).2 (by decide)⟩

/-- The subprocess path of the pipeline when it times out. -/
theorem runInner_timeout (cfg : Config) (vid : JVal) (w : World)
    (ht : w.subproc = SubprocResult.timeout) :
    runInner cfg vid w =
      (Outcome.response ⟨504, [("error", JVal.str "Download timed out (10 min limit)")]⟩,
       false) := by
  unfold runInner
  rw [ht]

/-- The subprocess path of the pipeline on a non-zero exit code. -/
theorem runInner_nonzero_exit (cfg : Config) (vid : JVal) (w : World)
    (rc : Int) (out err : String)
    (hc : w.subproc = SubprocResult.completed rc out err) (hrc : rc ≠ 0) :
    runInner cfg vid w =
      (Outcome.response ⟨500, [("error", JVal.str ("Download failed: " ++ pyTake 500 err))]⟩,
       false) := by
  unfold runInner
  simp only [hc]
  rw [if_pos hrc]

/-- The pipeline when the subprocess exits 0, the metadata step returns a
duration value, and no recognised video file exists. -/
theorem runInner_no_file (cfg : Config) (vid : JVal) (w : World)
    (out err : String) (dur : JVal)
    (hc : w.subproc = SubprocResult.completed 0 out err)
    (hdur : durationStep out = some dur)
    (hnf : w.listdir.filter hasVideoExt = []) :
    runInner cfg vid w =
      (Outcome.response ⟨500, [("error", JVal.str "No video file found after download")]⟩,
       false) := by
  unfold runInner
  simp only [hc]
  rw [if_neg (by decide)]
  simp only [hdur, hnf]

/-- The fully successful pipeline: exit 0, a duration value recovered and
convertible by `int()`, a video file present, and a successful upload. -/
theorem runInner_success (cfg : Config) (vid : JVal) (w : World)
    (out err : String) (dur : JVal) (d : Int) (f : String) (rest : List String)
    (hc : w.subproc = SubprocResult.completed 0 out err)
    (hdur : durationStep out = some dur)
    (hf : w.listdir.filter hasVideoExt = f :: rest)
    (hup : w.uploadError = none)
    (hd : pyInt dur = some d) :
    runInner cfg vid w =
      (Outcome.response ⟨200, [("sourceUrl", JVal.str (source_url cfg vid)),
                               ("duration", JVal.num d),
                               ("fileSize", JVal.num (w.getsize f : Int))]⟩,
       true) := by
  unfold runInner
  simp only [hc]
  rw [if_neg (by decide)]
  simp only [hdur, hf, hup, hd]

/-- C6: for every request that passes auth and validation and whose
downloader subprocess exceeds the 600-second timeout, the response is 504
and no storage upload call occurs (the temp directory is still cleaned
up). -/
theorem C6_timeout_504 (cfg : Config) (req : Req) (w : World)
    (kvs : List (String × JVal)) (u : JVal)
    (hauth : cfg.API_SECRET = "" ∨
             req.authorization.getD "" = "Bearer " ++ cfg.API_SECRET)
    (hb : req.body = some (JVal.obj kvs))
    (hku : dictGet kvs "url" = some u) (hu : pyFalsy u = false)
    (ht : w.subproc = SubprocResult.timeout) :
    download_video cfg req w =
      ⟨Outcome.response ⟨504, [("error", JVal.str "Download timed out (10 min limit)")]⟩,
       false, true, true⟩ := by
  rw [download_video_auth_pass cfg req w hauth,
      processRequest_valid cfg req w kvs u hb hku hu,
      runInner_timeout cfg _ w ht]
  rfl

/-- C6, witness: a valid request whose subprocess times out gets the 504
response and the upload flag stays false. -/
theorem C6_timeout_504_witness :
    download_video cfg0 reqGood wTimeout =
      ⟨Outcome.response ⟨504, [("error", JVal.str "Download timed out (10 min limit)")]⟩,
       false, true, true⟩ :=
  C6_timeout_504 cfg0 reqGood wTimeout
    [("url", JVal.str "https://www.youtube.com/watch?v=abc"), ("videoId", JVal.str "vid1")]
    (JVal.str "https://www.youtube.com/watch?v=abc")
    (Or.inl rfl) rfl rfl rfl rfl

/-- C7: for every request that passes auth and validation and whose
downloader subprocess exits non-zero, the response is 500, no storage upload
call occurs, and the error text is `Download failed: ` followed by at most
500 characters of the subprocess's stderr. -/
theorem C7_nonzero_exit_500 (cfg : Config) (req : Req) (w : World)
    (kvs : List (String × JVal)) (u : JVal) (rc : Int) (out err : String)
    (hauth : cfg.API_SECRET = "" ∨
             req.authorization.getD "" = "Bearer " ++ cfg.API_SECRET)
    (hb : req.body = some (JVal.obj kvs))
    (hku : dictGet kvs "url" = some u) (hu : pyFalsy u = false)
    (hc : w.subproc = SubprocResult.completed rc out err) (hrc : rc ≠ 0) :
    download_video cfg req w =
      ⟨Outcome.response ⟨500, [("error", JVal.str ("Download failed: " ++ pyTake 500 err))]⟩,
       false, true, true⟩ ∧
    (pyTake 500 err).length ≤ 500 := by
  constructor
  · rw [download_video_auth_pass cfg req w hauth,
        processRequest_valid cfg req w kvs u hb hku hu,
        runInner_nonzero_exit cfg _ w rc out err hc hrc]
    rfl
  · exact List.length_take_le 500 err.data

/-- C7, witness: a valid request whose subprocess exits 1 with stderr
`ERROR: boom` gets the truncated 500 response and no upload. -/
theorem C7_nonzero_exit_500_witness :
    download_video cfg0 reqGood wFail =
      ⟨Outcome.response ⟨500, [("error", JVal.str ("Download failed: " ++ pyTake 500 "ERROR: boom"))]⟩,
       false, true, true⟩ ∧
    (pyTake 500 "ERROR: boom").length ≤ 500 :=
  C7_nonzero_exit_500 cfg0 reqGood wFail
    [("url", JVal.str "https://www.youtube.com/watch?v=abc"), ("videoId", JVal.str "vid1")]
    (JVal.str "https://www.youtube.com/watch?v=abc") 1 "" "ERROR: boom"
    (Or.inl rfl) rfl rfl rfl rfl (by decide)

/-- C5 (corrected), counterexample: a request whose JSON body is the truthy
non-object `[1]` does not get a 400 with an error field — `data.get("url")`
raises an uncaught `AttributeError`, so no `jsonify` response (and no JSON
`error` field) is produced at all. -/
theorem C5_missing_url_counterexample :
    (download_video cfg0 reqBadBody wSuccess).outcome = Outcome.exception "AttributeError" ∧
    outcomeStatus (download_video cfg0 reqBadBody wSuccess).outcome = none ∧
    errorField (download_video cfg0 reqBadBody wSuccess).outcome = none :=
  ⟨rfl, rfl, rfl⟩

/-- C5 (amended): for every request (passing auth) whose body is absent,
falsy (JSON `null`, `false`, `0`, `""`, `[]`, `{}`), or an object lacking a
`url` key or binding it to a falsy value, the response is 400 with the error
field `url is required`; a truthy non-object body instead raises an uncaught
`AttributeError`. -/
theorem C5_missing_url_400 (cfg : Config) (req : Req) (w : World)
    (hauth : cfg.API_SECRET = "" ∨
             req.authorization.getD "" = "Bearer " ++ cfg.API_SECRET)
    (hbad : req.body = none ∨
            (∃ d, req.body = some d ∧ pyFalsy d = true) ∨
            (∃ kvs, req.body = some (JVal.obj kvs) ∧
              (dictGet kvs "url" = none ∨
               ∃ u, dictGet kvs "url" = some u ∧ pyFalsy u = true))) :
    download_video cfg req w =
      ⟨Outcome.response ⟨400, [("error", JVal.str "url is required")]⟩,
       false, false, false⟩ ∧
    errorField (download_video cfg req w).outcome = some (JVal.str "url is required") := by
  rw [download_video_auth_pass cfg req w hauth]
  unfold processRequest
  rcases hbad with h | ⟨d, hd, hfalsy⟩ | ⟨kvs, hk, hrest⟩
  · rw [h]
    exact ⟨rfl, rfl⟩
  · rw [hd]
    simp only [hfalsy, if_true]
    exact ⟨True.intro, rfl⟩
  · rw [hk]
    by_cases hfo : pyFalsy (JVal.obj kvs) = true
    · simp only [hfo, if_true]
      exact ⟨True.intro, rfl⟩
    · simp only [hfo, Bool.false_eq_true, if_false]
      rcases hrest with hnone | ⟨u, hku, huf⟩
      · simp only [hnone]
        exact ⟨True.intro, rfl⟩
      · simp only [hku, huf, if_true]
        exact ⟨True.intro, rfl⟩

/-- C5, witness: a request with no JSON body at all gets the 400 response
with the error field. -/
theorem C5_missing_url_400_witness :
    download_video cfg0 reqNoBody wSuccess =
      ⟨Outcome.response ⟨400, [("error", JVal.str "url is required")]⟩,
       false, false, false⟩ ∧
    errorField (download_video cfg0 reqNoBody wSuccess).outcome = some (JVal.str "url is required") :=
  C5_missing_url_400 cfg0 reqNoBody wSuccess (Or.inl rfl) (Or.inl rfl)

/-- C8 (corrected), counterexample: the downloader exits 0 and no recognised
video file exists, but because the last stdout line is the JSON array `[1]`,
`metadata.get` raises an uncaught `AttributeError` before the file scan, so
the claimed 500-with-error-field JSON response is never produced (Flask
serves its default error page with no JSON body); no upload occurs. -/
theorem C8_no_file_counterexample :
    (download_video cfg0 reqGood wBadMetaNoFile).outcome = Outcome.exception "AttributeError" ∧
    outcomeStatus (download_video cfg0 reqGood wBadMetaNoFile).outcome = none ∧
    errorField (download_video cfg0 reqGood wBadMetaNoFile).outcome = none ∧
    (download_video cfg0 reqGood wBadMetaNoFile).uploadCalled = false :=
  ⟨rfl, rfl, rfl, rfl⟩

/-- C8 (amended): for every request that passes auth and validation, whose
downloader exits 0, whose metadata-parse step completes without raising
(the last stdout line is not a truthy non-object JSON value), and whose
temp directory contains no file ending in `.mp4`, `.mkv` or `.webm`, the
response is 500 with an error field and no storage upload call occurs. -/
theorem C8_no_file_500 (cfg : Config) (req : Req) (w : World)
    (kvs : List (String × JVal)) (u : JVal) (out err : String) (dur : JVal)
    (hauth : cfg.API_SECRET = "" ∨
             req.authorization.getD "" = "Bearer " ++ cfg.API_SECRET)
    (hb : req.body = some (JVal.obj kvs))
    (hku : dictGet kvs "url" = some u) (hu : pyFalsy u = false)
    (hc : w.subproc = SubprocResult.completed 0 out err)
    (hdur : durationStep out = some dur)
    (hnf : w.listdir.filter hasVideoExt = []) :
    download_video cfg req w =
      ⟨Outcome.response ⟨500, [("error", JVal.str "No video file found after download")]⟩,
       false, true, true⟩ ∧
    errorField (download_video cfg req w).outcome =
      some (JVal.str "No video file found after download") := by
  have h : download_video cfg req w =
      ⟨Outcome.response ⟨500, [("error", JVal.str "No video file found after download")]⟩,
       false, true, true⟩ := by
    rw [download_video_auth_pass cfg req w hauth,
        processRequest_valid cfg req w kvs u hb hku hu,
        runInner_no_file cfg _ w out err dur hc hdur hnf]
    rfl
  exact ⟨h, by rw [h]; rfl⟩

/-- C8, witness: exit 0 with valid metadata but only `vid1.txt` in the temp
directory yields the 500 no-video-file response and no upload. -/
theorem C8_no_file_500_witness :
    download_video cfg0 reqGood wNoFile =
      ⟨Outcome.response ⟨500, [("error", JVal.str "No video file found after download")]⟩,
       false, true, true⟩ ∧
    errorField (download_video cfg0 reqGood wNoFile).outcome =
      some (JVal.str "No video file found after download") :=
  C8_no_file_500 cfg0 reqGood wNoFile
    [("url", JVal.str "https://www.youtube.com/watch?v=abc"), ("videoId", JVal.str "vid1")]
    (JVal.str "https://www.youtube.com/watch?v=abc")
    "\x7b\"duration\": 42\x7d" "" (JVal.num 42)
    (Or.inl rfl) rfl rfl rfl rfl rfl rfl

/-- C2 (corrected), counterexample: a parse attempt on a last stdout line
that is valid JSON but not an object (`[1]`) fails to recover a duration
value, and is fatal: `metadata.get` raises an uncaught `AttributeError`, so
the request errors out instead of proceeding with duration 0. -/
theorem C2_duration_parse_counterexample :
    (download_video cfg0 reqGood wBadMeta).outcome = Outcome.exception "AttributeError" ∧
    outcomeStatus (download_video cfg0 reqGood wBadMeta).outcome = none :=
  ⟨rfl, rfl⟩

/-- C2 (amended): for every request whose downloader output's last line
fails to parse as JSON (a `json.JSONDecodeError`), the failure is non-fatal:
the request proceeds with duration 0, and on an otherwise successful run
responds 200 with `duration` equal to 0.  Only when the line parses to a
non-object JSON value does the handler raise instead. -/
theorem C2_duration_decode_failure_nonfatal (cfg : Config) (req : Req) (w : World)
    (kvs : List (String × JVal)) (u : JVal) (out err f : String) (rest : List String)
    (hauth : cfg.API_SECRET = "" ∨
             req.authorization.getD "" = "Bearer " ++ cfg.API_SECRET)
    (hb : req.body = some (JVal.obj kvs))
    (hku : dictGet kvs "url" = some u) (hu : pyFalsy u = false)
    (hc : w.subproc = SubprocResult.completed 0 out err)
    (hjson : jsonLoads (lastLine out) = none)
    (hf : w.listdir.filter hasVideoExt = f :: rest)
    (hup : w.uploadError = none) :
    download_video cfg req w =
      ⟨Outcome.response ⟨200,
        [("sourceUrl", JVal.str (source_url cfg (resolveVideoId kvs w.uuidToken))),
         ("duration", JVal.num 0),
         ("fileSize", JVal.num (w.getsize f : Int))]⟩,
       true, true, true⟩ := by
  have hdur : durationStep out = some (JVal.num 0) := by
    unfold durationStep
    rw [hjson]
  rw [download_video_auth_pass cfg req w hauth,
      processRequest_valid cfg req w kvs u hb hku hu,
      runInner_success cfg _ w out err (JVal.num 0) 0 f rest hc hdur hf hup rfl]
  rfl

/-- C2, witness: stdout `no json here` fails to decode, and the request
succeeds with duration 0. -/
theorem C2_duration_decode_failure_nonfatal_witness :
    download_video cfg0 reqGood wGarbageMeta =
      ⟨Outcome.response ⟨200,
        [("sourceUrl", JVal.str (source_url cfg0 (resolveVideoId
            [("url", JVal.str "https://www.youtube.com/watch?v=abc"), ("videoId", JVal.str "vid1")]
            wGarbageMeta.uuidToken))),
         ("duration", JVal.num 0),
         ("fileSize", JVal.num (wGarbageMeta.getsize "vid1.mp4" : Int))]⟩,
       true, true, true⟩ :=
  C2_duration_decode_failure_nonfatal cfg0 reqGood wGarbageMeta
    [("url", JVal.str "https://www.youtube.com/watch?v=abc"), ("videoId", JVal.str "vid1")]
    (JVal.str "https://www.youtube.com/watch?v=abc") "no json here" "" "vid1.mp4" []
    (Or.inl rfl) rfl rfl rfl rfl rfl rfl rfl

/-- Two equal response outcomes have the same status. -/
theorem response_status_eq {s : Nat} {b : List (String × JVal)} {r : JsonResponse}
    (h : Outcome.response ⟨s, b⟩ = Outcome.response r) : r.status = s := by
  injection h with h
  rw [← h]

/-- Any 200 response produced by the pipeline comes from the fully
successful path, and its body is exactly the three success fields. -/
theorem runInner_200 (cfg : Config) (vid : JVal) (w : World) (r : JsonResponse)
    (ho : (runInner cfg vid w).1 = Outcome.response r) (hs : r.status = 200) :
    ∃ out err dur f rest d,
      w.subproc = SubprocResult.completed 0 out err ∧
      durationStep out = some dur ∧
      w.listdir.filter hasVideoExt = f :: rest ∧
      w.uploadError = none ∧
      pyInt dur = some d ∧
      r = ⟨200, [("sourceUrl", JVal.str (source_url cfg vid)),
                 ("duration", JVal.num d),
                 ("fileSize", JVal.num (w.getsize f : Int))]⟩ := by
  unfold runInner at ho
  split at ho
  · exfalso
    have := response_status_eq ho
    omega
  · rename_i rc out err heq
    split at ho
    · exfalso
      have := response_status_eq ho
      omega
    · rename_i hrc
      have hrc0 : rc = 0 := not_not.mp hrc
      subst hrc0
      split at ho
      · exact Outcome.noConfusion ho
      · rename_i dur heq2
        split at ho
        · exfalso
          have := response_status_eq ho
          omega
        · rename_i f rest heq3
          split at ho
          · exfalso
            have := response_status_eq ho
            omega
          · rename_i heq4
            split at ho
            · exact Outcome.noConfusion ho
            · rename_i d heq5
              injection ho with hr
              exact ⟨out, err, dur, f, rest, d, heq, heq2, heq3, heq4, heq5, hr.symm⟩

/-- Any 200 response out of the validation-plus-pipeline stage comes from a
dict body with a truthy url and the fully successful pipeline. -/
theorem processRequest_200 (cfg : Config) (req : Req) (w : World) (r : JsonResponse)
    (ho : (processRequest cfg req w).outcome = Outcome.response r) (hs : r.status = 200) :
    ∃ kvs, req.body = some (JVal.obj kvs) ∧
      ∃ out err dur f rest d,
        w.subproc = SubprocResult.completed 0 out err ∧
        durationStep out = some dur ∧
        w.listdir.filter hasVideoExt = f :: rest ∧
        w.uploadError = none ∧
        pyInt dur = some d ∧
        r = ⟨200, [("sourceUrl", JVal.str (source_url cfg (resolveVideoId kvs w.uuidToken))),
                   ("duration", JVal.num d),
                   ("fileSize", JVal.num (w.getsize f : Int))]⟩ := by
  unfold processRequest at ho
  split at ho
  · exfalso
    have := response_status_eq ho
    omega
  · rename_i data heq
    split at ho
    · exfalso
      have := response_status_eq ho
      omega
    · split at ho
      · rename_i kvs hfalsy
        split at ho
        · exfalso
          have := response_status_eq ho
          omega
        · rename_i u hku
          split at ho
          · exfalso
            have := response_status_eq ho
            omega
          · exact ⟨kvs, heq, runInner_200 cfg (resolveVideoId kvs w.uuidToken) w r ho hs⟩
      · exact Outcome.noConfusion ho

/-- C1: for every request that reaches full success (the response is a 200),
the body's `sourceUrl` equals `{endpoint}/{bucket}/youtube/{id}.mp4` with the
endpoint's trailing slashes stripped and `id` the resolved working
identifier, `fileSize` equals the byte size of the located local file
measured before the upload, and `duration` equals `int()` of the duration
parsed from the downloader's last output line (0 when it was unparseable). -/
theorem C1_success_response (cfg : Config) (req : Req) (w : World) (r : JsonResponse)
    (ho : (download_video cfg req w).outcome = Outcome.response r)
    (hs : r.status = 200) :
    ∃ kvs, req.body = some (JVal.obj kvs) ∧
      ∃ out err dur f rest d,
        w.subproc = SubprocResult.completed 0 out err ∧
        durationStep out = some dur ∧
        w.listdir.filter hasVideoExt = f :: rest ∧
        w.uploadError = none ∧
        pyInt dur = some d ∧
        r = ⟨200, [("sourceUrl", JVal.str (source_url cfg (resolveVideoId kvs w.uuidToken))),
                   ("duration", JVal.num d),
                   ("fileSize", JVal.num (w.getsize f : Int))]⟩ := by
  unfold download_video at ho
  split at ho
  · split at ho
    · exfalso
      have := response_status_eq ho
      omega
    · exact processRequest_200 cfg req w r ho hs
  · exact processRequest_200 cfg req w r ho hs

/-- C1, witness: a concrete fully successful run, whose 200 body carries the
constructed URL, the parsed duration 42 and the measured size 1234. -/
theorem C1_success_response_witness :
    ∃ kvs, reqGood.body = some (JVal.obj kvs) ∧
      ∃ out err dur f rest d,
        wSuccess.subproc = SubprocResult.completed 0 out err ∧
        durationStep out = some dur ∧
        wSuccess.listdir.filter hasVideoExt = f :: rest ∧
        wSuccess.uploadError = none ∧
        pyInt dur = some d ∧
        (⟨200, [("sourceUrl", JVal.str "http://minio:9000/source/youtube/vid1.mp4"),
                ("duration", JVal.num 42),
                ("fileSize", JVal.num 1234)]⟩ : JsonResponse) =
          ⟨200, [("sourceUrl", JVal.str (source_url cfg0 (resolveVideoId kvs wSuccess.uuidToken))),
                 ("duration", JVal.num d),
                 ("fileSize", JVal.num (wSuccess.getsize f : Int))]⟩ :=
  C1_success_response cfg0 reqGood wSuccess
    ⟨200, [("sourceUrl", JVal.str "http://minio:9000/source/youtube/vid1.mp4"),
           ("duration", JVal.num 42),
           ("fileSize", JVal.num 1234)]⟩ rfl rfl

/-- C10: when the JSON body binds `videoId` to the empty string, that empty
string is used verbatim as the working identifier — on a fully successful
run the object key is `youtube/.mp4` and the `sourceUrl` is
`{endpoint}/{bucket}/` followed by `youtube/.mp4` — while the random token
is substituted only when the `videoId` key is entirely absent. -/
theorem C10_empty_videoId_verbatim :
    (∀ (cfg : Config) (req : Req) (w : World) (kvs : List (String × JVal)) (u : JVal)
       (out err f : String) (rest : List String) (dur : JVal) (d : Int),
      (cfg.API_SECRET = "" ∨ req.authorization.getD "" = "Bearer " ++ cfg.API_SECRET) →
      req.body = some (JVal.obj kvs) →
      dictGet kvs "url" = some u → pyFalsy u = false →
      dictGet kvs "videoId" = some (JVal.str "") →
      w.subproc = SubprocResult.completed 0 out err →
      durationStep out = some dur → pyInt dur = some d →
      w.listdir.filter hasVideoExt = f :: rest →
      w.uploadError = none →
      download_video cfg req w =
        ⟨Outcome.response ⟨200,
          [("sourceUrl", JVal.str (pyRstripSlash cfg.MINIO_ENDPOINT ++ "/" ++
                                   cfg.MINIO_BUCKET ++ "/" ++ "youtube/.mp4")),
           ("duration", JVal.num d),
           ("fileSize", JVal.num (w.getsize f : Int))]⟩, true, true, true⟩ ∧
      object_key (JVal.str "") = "youtube/.mp4") ∧
    (∀ (kvs : List (String × JVal)) (token : String),
      dictGet kvs "videoId" = none → resolveVideoId kvs token = JVal.str token) := by
  constructor
  · intro cfg req w kvs u out err f rest dur d hauth hb hku hu hv hc hdur hd hf hup
    have hvid : resolveVideoId kvs w.uuidToken = JVal.str "" := by
      unfold resolveVideoId
      rw [hv]
      rfl
    refine ⟨?_, rfl⟩
    rw [download_video_auth_pass cfg req w hauth,
        processRequest_valid cfg req w kvs u hb hku hu, hvid,
        runInner_success cfg (JVal.str "") w out err dur d f rest hc hdur hf hup hd]
    rfl
  · intro kvs token hnone
    unfold resolveVideoId
    rw [hnone]
    rfl

/-- C10, witness: a body with `videoId` bound to `""` yields an object URL
ending in `/youtube/.mp4`, and a body without the key resolves to the
random token. -/
theorem C10_empty_videoId_verbatim_witness :
    (download_video cfg0 reqEmptyVid wSuccess =
      ⟨Outcome.response ⟨200,
        [("sourceUrl", JVal.str (pyRstripSlash cfg0.MINIO_ENDPOINT ++ "/" ++
                                 cfg0.MINIO_BUCKET ++ "/" ++ "youtube/.mp4")),
         ("duration", JVal.num 42),
         ("fileSize", JVal.num (wSuccess.getsize "vid1.mp4" : Int))]⟩, true, true, true⟩ ∧
     object_key (JVal.str "") = "youtube/.mp4") ∧
    resolveVideoId [("url", JVal.str "https://youtu.be/x")] "tok12345" = JVal.str "tok12345" :=
  ⟨C10_empty_videoId_verbatim.1 cfg0 reqEmptyVid wSuccess
      [("url", JVal.str "https://youtu.be/x"), ("videoId", JVal.str "")]
      (JVal.str "https://youtu.be/x")
      "preamble\n\x7b\"duration\": 42\x7d" "" "vid1.mp4" [] (JVal.num 42) 42
      (Or.inl rfl) rfl rfl rfl rfl rfl rfl rfl rfl rfl,
   C10_empty_videoId_verbatim.2 [("url", JVal.str "https://youtu.be/x")] "tok12345" rfl⟩
